import Mathlib

/-!
Verification of `src/include/misc/debug_marker.h` (Anvil's VK_EXT_debug_marker
support layer).

The header defines two cooperating pieces:

* `DebugMarkerSupportProviderWorker` — a per-handle cache of a name, a tag
  (id + byte buffer) and the Vulkan handle it represents; it pushes cached
  state to the driver extension when available.
* `DebugMarkerSupportProvider` — a mixin operating either in single-handle
  mode (exactly one worker) or delegate mode (a dynamic list of workers kept
  in sync with one logical name/tag).

Modelling conventions:

* Vulkan handles are `Nat`, with `0` standing for `VK_NULL_HANDLE`.
* Names are `List Char` (C strings without the terminating NUL); tag byte
  buffers are `List Nat`.
* `anvil_assert` is modelled with debug-build semantics: a failed assertion
  aborts the operation, rendered as an `Option`-valued result returning
  `none`.  A `some` result is an execution in which no assertion fired.
* Driver-side calls of the extension entry points are recorded as a list of
  `DriverCall` events; their return status is ignored by the source
  (best-effort semantics), so the events carry no status.
* The bodies of the worker's constructor, `set_name_internal`,
  `set_tag_internal` and `set_vk_handle_internal` are declared in the header
  but defined in a translation unit that is not part of `src/`; those
  definitions are modelled from the spec and are marked as such in their
  doc comments.  Everything on `DebugMarkerSupportProvider` is translated
  directly from the header.
-/

namespace Anvil

/-- Model of the `std::weak_ptr<Anvil::BaseDevice>` target: all the component
ever asks of the device is whether the weak pointer is still alive and
whether the device reports VK_EXT_debug_marker support. -/
structure Device where
  alive : Bool
  ext_debug_marker_available : Bool
deriving DecidableEq, Repr

/-- A default-constructed (expired) `std::weak_ptr<Anvil::BaseDevice>`. -/
def Device.expired : Device :=
  { alive := false, ext_debug_marker_available := false }

/-- One driver-side invocation of a VK_EXT_debug_marker entry point.  The
source ignores the returned status, so the event records arguments only. -/
inductive DriverCall where
  | nameObject (vkObjectType : Nat) (vkObjectHandle : Nat) (objectName : List Char)
  | tagObject (vkObjectType : Nat) (vkObjectHandle : Nat) (tagName : Nat)
      (tagData : List Nat)
deriving DecidableEq, Repr

/-- State of `Anvil::DebugMarkerSupportProviderWorker` (header lines
110-118): the cached device reference, the extension-availability flag
computed once at construction, the cached name, tag data and tag id, the
represented Vulkan handle and the Vulkan object type. -/
structure DebugMarkerSupportProviderWorker where
  m_device_ptr : Device
  m_is_ext_debug_marker_available : Bool
  m_object_name : List Char
  m_object_tag_data : List Nat
  m_object_tag_name : Nat
  m_vk_object_handle : Nat
  m_vk_object_type : Nat
deriving DecidableEq, Repr

namespace DebugMarkerSupportProviderWorker

/-- Modelled from the spec: the constructor of
`DebugMarkerSupportProviderWorker` is declared at header lines 41-42 but its
body lives outside `src/`.  Per spec §4.1, construction asserts the device
is still alive and queries it once for extension support; the cached name,
tag data and tag id start empty/zero, and the handle starts null. -/
def construct (in_device_ptr : Device) (in_vk_object_type : Nat) :
    Option DebugMarkerSupportProviderWorker :=
  if in_device_ptr.alive = true then
    some { m_device_ptr := in_device_ptr
           m_is_ext_debug_marker_available := in_device_ptr.ext_debug_marker_available
           m_object_name := []
           m_object_tag_data := []
           m_object_tag_name := 0
           m_vk_object_handle := 0
           m_vk_object_type := in_vk_object_type }
  else
    none

/-- `get_name` (header lines 51-54): returns the cached name. -/
def get_name (w : DebugMarkerSupportProviderWorker) : List Char :=
  w.m_object_name

/-- `get_tag` (header lines 62-67): returns the cached tag data and tag
name; the two C++ out-parameters are rendered as a pair. -/
def get_tag (w : DebugMarkerSupportProviderWorker) : List Nat × Nat :=
  (w.m_object_tag_data, w.m_object_tag_name)

/-- `get_vk_handle_internal` (header lines 70-73): returns the represented
Vulkan handle. -/
def get_vk_handle_internal (w : DebugMarkerSupportProviderWorker) : Nat :=
  w.m_vk_object_handle

/-- Modelled from the spec: the body of `set_name_internal` (declared at
header lines 84-85) lives outside `src/`.  Per spec §4.1, if the new name
equals the cached name and `in_should_force` is false the call is a no-op;
otherwise the cache is updated and, if the extension is available and a
handle is bound, the driver naming call is issued.  The driver call's
status is ignored. -/
def set_name_internal (w : DebugMarkerSupportProviderWorker)
    (in_object_name : List Char) (in_should_force : Bool) :
    DebugMarkerSupportProviderWorker × List DriverCall :=
  if in_object_name = w.m_object_name ∧ in_should_force = false then
    (w, [])
  else
    ({ w with m_object_name := in_object_name },
     if w.m_is_ext_debug_marker_available = true ∧ w.m_vk_object_handle ≠ 0 then
       [DriverCall.nameObject w.m_vk_object_type w.m_vk_object_handle in_object_name]
     else
       [])

/-- Modelled from the spec: the body of `set_tag_internal` (declared at
header lines 98-101) lives outside `src/`.  Per spec §4.1 the call compares
`(tagId, size, bytes)` against the cache and is a no-op when equal and not
forced; otherwise it copies the bytes into the owned buffer, updates the tag
id and, under the same availability/handle conditions as `set_name_internal`,
issues the driver tagging call.  Per spec §1 ("non-null/size checks") the
size is asserted non-zero, modelled as the byte list being non-empty. -/
def set_tag_internal (w : DebugMarkerSupportProviderWorker)
    (in_tag_name : Nat) (in_tag_data : List Nat) (in_should_force : Bool) :
    Option (DebugMarkerSupportProviderWorker × List DriverCall) :=
  if in_tag_data = [] then
    none
  else if in_tag_name = w.m_object_tag_name ∧ in_tag_data = w.m_object_tag_data ∧
      in_should_force = false then
    some (w, [])
  else
    some ({ w with m_object_tag_name := in_tag_name, m_object_tag_data := in_tag_data },
      if w.m_is_ext_debug_marker_available = true ∧ w.m_vk_object_handle ≠ 0 then
        [DriverCall.tagObject w.m_vk_object_type w.m_vk_object_handle in_tag_name
          in_tag_data]
      else
        [])

/-- Modelled from the spec: the body of `set_vk_handle_internal` (declared at
header line 108) lives outside `src/`.  Per the header doc (lines 103-107)
the new handle "may be VK_NULL_HANDLE if previously assigned a non-null
handle"; passing a null handle to a worker that never held one is a contract
violation, asserted.  Otherwise the handle is replaced; no driver call
results from this alone. -/
def set_vk_handle_internal (w : DebugMarkerSupportProviderWorker)
    (in_vk_object_handle : Nat) : Option DebugMarkerSupportProviderWorker :=
  if in_vk_object_handle = 0 ∧ w.m_vk_object_handle = 0 then
    none
  else
    some { w with m_vk_object_handle := in_vk_object_handle }

end DebugMarkerSupportProviderWorker

/-- State of `Anvil::DebugMarkerSupportProvider` (header lines 369-379): the
delegate worker list, device reference and object type (used only in delegate
mode) and the single worker pointer (used only in single-handle mode). -/
structure DebugMarkerSupportProvider where
  m_delegate_workers : List DebugMarkerSupportProviderWorker
  m_device_ptr : Device
  m_vk_object_type : Nat
  m_worker_ptr : Option DebugMarkerSupportProviderWorker
deriving DecidableEq, Repr

namespace DebugMarkerSupportProvider

/-- Constructor (header lines 153-171): asserts the device is alive; without
delegate workers it immediately creates the single worker, otherwise it
stores the device and object type for later on-demand worker creation.  In
single-handle mode the C++ leaves `m_device_ptr` default-constructed
(expired) and `m_vk_object_type` unwritten; the unwritten enum is modelled
as `0` (it is never read in that mode). -/
def construct (in_device_ptr : Device) (in_vk_object_type : Nat)
    (in_use_delegate_workers : Bool) : Option DebugMarkerSupportProvider :=
  if in_device_ptr.alive = true then
    if in_use_delegate_workers = false then
      match DebugMarkerSupportProviderWorker.construct in_device_ptr in_vk_object_type with
      | none => none
      | some w =>
        some { m_delegate_workers := []
               m_device_ptr := Device.expired
               m_vk_object_type := 0
               m_worker_ptr := some w }
    else
      some { m_delegate_workers := []
             m_device_ptr := in_device_ptr
             m_vk_object_type := in_vk_object_type
             m_worker_ptr := none }
  else
    none

/-- `add_delegate` (header lines 188-232): asserts the single worker pointer
is null; in debug builds asserts the handle does not duplicate an existing
delegate's handle; constructs a new worker, binds the handle to it, appends
it, and — when another delegate already exists — copies the first delegate's
current name, and its tag when the tag data is non-empty, onto the new
delegate. -/
def add_delegate (p : DebugMarkerSupportProvider) (in_vk_object_handle : Nat) :
    Option (DebugMarkerSupportProvider × List DriverCall) :=
  match p.m_worker_ptr with
  | some _ => none
  | none =>
    if ∃ d ∈ p.m_delegate_workers,
        d.get_vk_handle_internal = in_vk_object_handle then
      none
    else
      match DebugMarkerSupportProviderWorker.construct p.m_device_ptr
          p.m_vk_object_type with
      | none => none
      | some w0 =>
        match w0.set_vk_handle_internal in_vk_object_handle with
        | none => none
        | some w1 =>
          match p.m_delegate_workers with
          | [] => some ({ p with m_delegate_workers := [w1] }, [])
          | first :: rest =>
            if 0 < (first.get_tag).1.length then
              match ((w1.set_name_internal first.get_name false).1).set_tag_internal
                  (first.get_tag).2 (first.get_tag).1 false with
              | none => none
              | some (w3, ev2) =>
                some ({ p with m_delegate_workers := (first :: rest) ++ [w3] },
                  (w1.set_name_internal first.get_name false).2 ++ ev2)
            else
              some ({ p with
                  m_delegate_workers :=
                    (first :: rest) ++ [(w1.set_name_internal first.get_name false).1] },
                (w1.set_name_internal first.get_name false).2)

/-- The erase step of `remove_delegate` (header lines 247-260): scan for the
first delegate bound to the handle and drop it; `none` when no delegate
matches (the found-assertion fires). -/
def eraseFirstHandle (in_vk_object_handle : Nat) :
    List DebugMarkerSupportProviderWorker →
      Option (List DebugMarkerSupportProviderWorker)
  | [] => none
  | w :: ws =>
    if w.get_vk_handle_internal = in_vk_object_handle then
      some ws
    else
      (eraseFirstHandle in_vk_object_handle ws).map (fun ws' => w :: ws')

/-- `remove_delegate` (header lines 241-261): asserts the single worker
pointer is null, scans for the delegate bound to the handle, asserts it was
found and erases it.  No driver call is issued. -/
def remove_delegate (p : DebugMarkerSupportProvider) (in_vk_object_handle : Nat) :
    Option DebugMarkerSupportProvider :=
  match p.m_worker_ptr with
  | some _ => none
  | none =>
    match eraseFirstHandle in_vk_object_handle p.m_delegate_workers with
    | none => none
    | some ws => some { p with m_delegate_workers := ws }

/-- The delegate-mode loop of `set_name` (header lines 280-283): each worker
receives `set_name_internal`, in collection order; updated workers and
emitted driver calls are collected in order. -/
def setNameList (in_object_name : List Char) :
    List DebugMarkerSupportProviderWorker →
      List DebugMarkerSupportProviderWorker × List DriverCall
  | [] => ([], [])
  | w :: ws =>
    ((w.set_name_internal in_object_name false).1 ::
        (setNameList in_object_name ws).1,
      (w.set_name_internal in_object_name false).2 ++
        (setNameList in_object_name ws).2)

/-- `set_name` (header lines 272-285): single-handle mode forwards to the one
worker's `set_name_internal`; delegate mode forwards to every delegate in
collection order. -/
def set_name (p : DebugMarkerSupportProvider) (in_object_name : List Char) :
    DebugMarkerSupportProvider × List DriverCall :=
  match p.m_worker_ptr with
  | some w =>
    ({ p with m_worker_ptr := some (w.set_name_internal in_object_name false).1 },
      (w.set_name_internal in_object_name false).2)
  | none =>
    ({ p with m_delegate_workers := (setNameList in_object_name p.m_delegate_workers).1 },
      (setNameList in_object_name p.m_delegate_workers).2)

/-- `set_name_formatted` (header lines 294-321): renders the formatted text
into a 1024-character stack buffer via `vsnprintf` and then repeats the
`set_name` forwarding logic on the buffer.  The variadic rendering itself is
C-library behaviour outside this component; it is abstracted as the already
rendered character list, of which `vsnprintf` stores at most 1023 characters
(the buffer's last byte holds the terminating NUL). -/
def set_name_formatted (p : DebugMarkerSupportProvider) (rendered : List Char) :
    DebugMarkerSupportProvider × List DriverCall :=
  match p.m_worker_ptr with
  | some w =>
    ({ p with m_worker_ptr := some (w.set_name_internal (rendered.take 1023) false).1 },
      (w.set_name_internal (rendered.take 1023) false).2)
  | none =>
    ({ p with
        m_delegate_workers := (setNameList (rendered.take 1023) p.m_delegate_workers).1 },
      (setNameList (rendered.take 1023) p.m_delegate_workers).2)

/-- The delegate-mode loop of `set_tag` (header lines 344-349): each worker
receives `set_tag_internal`, in collection order; `none` when a worker's
assertion fires. -/
def setTagList (in_tag_name : Nat) (in_tag_data : List Nat) :
    List DebugMarkerSupportProviderWorker →
      Option (List DebugMarkerSupportProviderWorker × List DriverCall)
  | [] => some ([], [])
  | w :: ws =>
    match w.set_tag_internal in_tag_name in_tag_data false with
    | none => none
    | some (w', ev) =>
      match setTagList in_tag_name in_tag_data ws with
      | none => none
      | some (ws', evs) => some (w' :: ws', ev ++ evs)

/-- `set_tag` (header lines 332-351): single-handle mode forwards to the one
worker's `set_tag_internal`; delegate mode forwards to every delegate in
collection order. -/
def set_tag (p : DebugMarkerSupportProvider) (in_tag_name : Nat)
    (in_tag_data : List Nat) :
    Option (DebugMarkerSupportProvider × List DriverCall) :=
  match p.m_worker_ptr with
  | some w =>
    match w.set_tag_internal in_tag_name in_tag_data false with
    | none => none
    | some (w', ev) => some ({ p with m_worker_ptr := some w' }, ev)
  | none =>
    match setTagList in_tag_name in_tag_data p.m_delegate_workers with
    | none => none
    | some (ws', evs) => some ({ p with m_delegate_workers := ws' }, evs)

/-- `set_vk_handle` (header lines 362-367): asserts the single worker pointer
is non-null and forwards to the worker's `set_vk_handle_internal`. -/
def set_vk_handle (p : DebugMarkerSupportProvider) (in_vk_object_handle : Nat) :
    Option DebugMarkerSupportProvider :=
  match p.m_worker_ptr with
  | none => none
  | some w =>
    match w.set_vk_handle_internal in_vk_object_handle with
    | none => none
    | some w' => some { p with m_worker_ptr := some w' }

end DebugMarkerSupportProvider

/-- One invocation of a `DebugMarkerSupportProvider` member function, used to
quantify over everything a caller can do to a provider after construction. -/
inductive Op where
  | addDelegate (h : Nat)
  | removeDelegate (h : Nat)
  | setName (n : List Char)
  | setNameFormatted (rendered : List Char)
  | setTag (tagName : Nat) (tagData : List Nat)
  | setVkHandle (h : Nat)
deriving DecidableEq, Repr

namespace DebugMarkerSupportProvider

/-- Dispatch one member-function invocation on a provider. -/
def apply (p : DebugMarkerSupportProvider) :
    Op → Option (DebugMarkerSupportProvider × List DriverCall)
  | Op.addDelegate h => p.add_delegate h
  | Op.removeDelegate h =>
    match p.remove_delegate h with
    | none => none
    | some q => some (q, [])
  | Op.setName n => some (p.set_name n)
  | Op.setNameFormatted rendered => some (p.set_name_formatted rendered)
  | Op.setTag t d => p.set_tag t d
  | Op.setVkHandle h =>
    match p.set_vk_handle h with
    | none => none
    | some q => some (q, [])

/-- Run a sequence of member-function invocations, aborting at the first
failed assertion and concatenating the driver calls in order. -/
def run (p : DebugMarkerSupportProvider) :
    List Op → Option (DebugMarkerSupportProvider × List DriverCall)
  | [] => some (p, [])
  | op :: ops =>
    match p.apply op with
    | none => none
    | some (p', ev) =>
      match p'.run ops with
      | none => none
      | some (p'', evs) => some (p'', ev ++ evs)

end DebugMarkerSupportProvider

/-- Iterate `set_name_internal` with the same name and `in_should_force =
false` a given number of times, collecting every driver call issued. -/
def repeatSetName (w : DebugMarkerSupportProviderWorker) (n : List Char) :
    Nat → DebugMarkerSupportProviderWorker × List DriverCall
  | 0 => (w, [])
  | Nat.succ k =>
    ((repeatSetName (w.set_name_internal n false).1 n k).1,
      (w.set_name_internal n false).2 ++
        (repeatSetName (w.set_name_internal n false).1 n k).2)

/-! ### Concrete instances used by the witness theorems -/

/-- A live device reporting VK_EXT_debug_marker support. -/
def devW : Device := { alive := true, ext_debug_marker_available := true }

/-- A worker holding a name, a tag and a bound handle. -/
def wTagW : DebugMarkerSupportProviderWorker :=
  { m_device_ptr := devW
    m_is_ext_debug_marker_available := true
    m_object_name := ['a']
    m_object_tag_data := [1, 2]
    m_object_tag_name := 7
    m_vk_object_handle := 3
    m_vk_object_type := 9 }

/-- A second delegate worker, bound to handle `4`. -/
def wTagW4 : DebugMarkerSupportProviderWorker :=
  { wTagW with m_vk_object_handle := 4 }

/-- The freshly constructed worker of a single-handle provider of type `5`. -/
def freshWorkerW : DebugMarkerSupportProviderWorker :=
  { m_device_ptr := devW
    m_is_ext_debug_marker_available := true
    m_object_name := []
    m_object_tag_data := []
    m_object_tag_name := 0
    m_vk_object_handle := 0
    m_vk_object_type := 5 }

/-- The provider produced by constructing in single-handle mode on `devW`. -/
def singleProvW : DebugMarkerSupportProvider :=
  { m_delegate_workers := []
    m_device_ptr := Device.expired
    m_vk_object_type := 0
    m_worker_ptr := some freshWorkerW }

/-- The provider produced by constructing in delegate mode on `devW`. -/
def delegProvW : DebugMarkerSupportProvider :=
  { m_delegate_workers := []
    m_device_ptr := devW
    m_vk_object_type := 5
    m_worker_ptr := none }

/-- A delegate-mode provider already holding one labelled delegate. -/
def delegProv1W : DebugMarkerSupportProvider :=
  { m_delegate_workers := [wTagW]
    m_device_ptr := devW
    m_vk_object_type := 9
    m_worker_ptr := none }

/-- A delegate-mode provider holding two delegates (handles `3` and `4`). -/
def delegProv2W : DebugMarkerSupportProvider :=
  { m_delegate_workers := [wTagW, wTagW4]
    m_device_ptr := devW
    m_vk_object_type := 9
    m_worker_ptr := none }

/-- A small member-function history used to exercise a provider lifetime. -/
def opsW : List Op :=
  [Op.addDelegate 1, Op.setName ['A'], Op.addDelegate 2, Op.removeDelegate 1]

/-! ### Spec-side descriptions of the delegate fan-out

These restate, worker by worker, what forwarding `set_name_internal` /
`set_tag_internal` to every delegate in collection order must produce; the
fan-out claim compares `set_name` / `set_tag` against them. -/

/-- The delegate list after forwarding `set_name_internal` to every worker. -/
def nameMapped (n : List Char) (ws : List DebugMarkerSupportProviderWorker) :
    List DebugMarkerSupportProviderWorker :=
  ws.map (fun w => (w.set_name_internal n false).1)

/-- The driver calls of forwarding `set_name_internal` to every worker, in
collection order. -/
def nameEvents (n : List Char) (ws : List DebugMarkerSupportProviderWorker) :
    List DriverCall :=
  (ws.map (fun w => (w.set_name_internal n false).2)).flatten

/-- The delegate list after forwarding `set_tag_internal` to every worker. -/
def tagMapped (t : Nat) (d : List Nat) (ws : List DebugMarkerSupportProviderWorker) :
    List DebugMarkerSupportProviderWorker :=
  ws.map (fun w => ((w.set_tag_internal t d false).getD (w, [])).1)

/-- The driver calls of forwarding `set_tag_internal` to every worker, in
collection order. -/
def tagEvents (t : Nat) (d : List Nat) (ws : List DebugMarkerSupportProviderWorker) :
    List DriverCall :=
  (ws.map (fun w => ((w.set_tag_internal t d false).getD (w, [])).2)).flatten

/-! ### Worker-level lemmas -/

namespace DebugMarkerSupportProviderWorker

theorem set_name_internal_fst (w : DebugMarkerSupportProviderWorker)
    (n : List Char) (f : Bool) :
    (w.set_name_internal n f).1.m_object_name = n ∧
    (w.set_name_internal n f).1.m_object_tag_data = w.m_object_tag_data ∧
    (w.set_name_internal n f).1.m_object_tag_name = w.m_object_tag_name ∧
    (w.set_name_internal n f).1.m_vk_object_handle = w.m_vk_object_handle ∧
    (w.set_name_internal n f).1.m_vk_object_type = w.m_vk_object_type ∧
    (w.set_name_internal n f).1.m_is_ext_debug_marker_available =
      w.m_is_ext_debug_marker_available := by
  unfold set_name_internal
  split
  · rename_i h
    exact ⟨h.1.symm, rfl, rfl, rfl, rfl, rfl⟩
  · exact ⟨rfl, rfl, rfl, rfl, rfl, rfl⟩

theorem set_name_internal_noop (w : DebugMarkerSupportProviderWorker)
    (n : List Char) (h : n = w.m_object_name) :
    w.set_name_internal n false = (w, []) := by
  unfold set_name_internal
  rw [if_pos ⟨h, rfl⟩]

theorem set_name_internal_events_length (w : DebugMarkerSupportProviderWorker)
    (n : List Char) (f : Bool) :
    (w.set_name_internal n f).2.length ≤ 1 := by
  unfold set_name_internal
  split
  · simp
  · split <;> simp

theorem set_tag_internal_eq_of_ne (w : DebugMarkerSupportProviderWorker)
    (t : Nat) (d : List Nat) (hd : d ≠ []) :
    ∃ w' ev, w.set_tag_internal t d false = some (w', ev) ∧
      w'.m_object_tag_name = t ∧ w'.m_object_tag_data = d ∧
      w'.m_object_name = w.m_object_name ∧
      w'.m_vk_object_handle = w.m_vk_object_handle ∧
      w'.m_vk_object_type = w.m_vk_object_type ∧
      w'.m_is_ext_debug_marker_available = w.m_is_ext_debug_marker_available := by
  unfold set_tag_internal
  rw [if_neg hd]
  split
  · rename_i h
    exact ⟨w, [], rfl, h.1.symm, h.2.1.symm, rfl, rfl, rfl, rfl⟩
  · exact ⟨_, _, rfl, rfl, rfl, rfl, rfl, rfl, rfl⟩

theorem construct_eq (d : Device) (t : Nat) (w : DebugMarkerSupportProviderWorker)
    (h : construct d t = some w) :
    w = { m_device_ptr := d
          m_is_ext_debug_marker_available := d.ext_debug_marker_available
          m_object_name := []
          m_object_tag_data := []
          m_object_tag_name := 0
          m_vk_object_handle := 0
          m_vk_object_type := t } := by
  unfold construct at h
  split at h
  · exact (Option.some.inj h).symm
  · exact Option.noConfusion h

theorem set_vk_handle_internal_some (w : DebugMarkerSupportProviderWorker)
    (hdl : Nat) (w' : DebugMarkerSupportProviderWorker)
    (h : w.set_vk_handle_internal hdl = some w') :
    w' = { w with m_vk_object_handle := hdl } := by
  unfold set_vk_handle_internal at h
  split at h
  · exact Option.noConfusion h
  · exact (Option.some.inj h).symm

end DebugMarkerSupportProviderWorker

theorem repeatSetName_snd_eq_nil (w : DebugMarkerSupportProviderWorker)
    (n : List Char) (k : Nat) (h : w.m_object_name = n) :
    (repeatSetName w n k).2 = [] := by
  induction k generalizing w with
  | zero => rfl
  | succ k ih =>
    unfold repeatSetName
    rw [DebugMarkerSupportProviderWorker.set_name_internal_noop w n h.symm]
    simpa using ih w h

theorem repeatSetName_length (w : DebugMarkerSupportProviderWorker)
    (n : List Char) (k : Nat) :
    (repeatSetName w n k).2.length ≤ 1 := by
  cases k with
  | zero => simp [repeatSetName]
  | succ k =>
    unfold repeatSetName
    rw [repeatSetName_snd_eq_nil _ n k
      (DebugMarkerSupportProviderWorker.set_name_internal_fst w n false).1]
    simpa using DebugMarkerSupportProviderWorker.set_name_internal_events_length w n false

/-! ### Claim theorems -/

/-- Claim C3: for every name `n`, after `set_name_internal(n)` on a worker,
`get_name` returns exactly `n`, regardless of extension availability (the
worker's availability flag is arbitrary here) and of any driver-call
outcome (the source ignores driver status, so the cache update is
unconditional). -/
theorem set_name_caches_exactly (w : DebugMarkerSupportProviderWorker)
    (n : List Char) (f : Bool) :
    ((w.set_name_internal n f).1).get_name = n :=
  (DebugMarkerSupportProviderWorker.set_name_internal_fst w n f).1

/-- Claim C4: repeating `set_name_internal(n)` with `in_should_force = false` any
number of times issues the driver naming call at most once; and when `n`
already equals the cached name, the call is a no-op — no driver call, no
cache change. -/
theorem set_name_repeat_at_most_one_driver_call
    (w : DebugMarkerSupportProviderWorker) (n : List Char) :
    (∀ k, ((repeatSetName w n k).2).length ≤ 1) ∧
    (w.get_name = n → w.set_name_internal n false = (w, [])) :=
  ⟨fun k => repeatSetName_length w n k,
    fun h => DebugMarkerSupportProviderWorker.set_name_internal_noop w n h.symm⟩

/-- Witness for C4 at the concrete worker `wTagW` whose cached name is
`['a']`. -/
theorem set_name_repeat_at_most_one_driver_call_witness :
    wTagW.get_name = ['a'] ∧
    wTagW.set_name_internal ['a'] false = (wTagW, []) ∧
    ((repeatSetName wTagW ['a'] 3).2).length ≤ 1 :=
  ⟨rfl, (set_name_repeat_at_most_one_driver_call wTagW ['a']).2 rfl,
    (set_name_repeat_at_most_one_driver_call wTagW ['a']).1 3⟩

namespace DebugMarkerSupportProvider

theorem construct_single_inv (d : Device) (t : Nat) (p : DebugMarkerSupportProvider)
    (h : construct d t false = some p) :
    ∃ w, p.m_worker_ptr = some w ∧ p.m_delegate_workers = [] := by
  unfold construct at h
  split at h
  · rename_i halive
    rw [if_pos rfl] at h
    unfold DebugMarkerSupportProviderWorker.construct at h
    rw [if_pos halive] at h
    exact ⟨_, by rw [← Option.some.inj h], by rw [← Option.some.inj h]⟩
  · exact Option.noConfusion h

theorem construct_delegate_inv (d : Device) (t : Nat) (p : DebugMarkerSupportProvider)
    (h : construct d t true = some p) :
    p.m_worker_ptr = none ∧ p.m_delegate_workers = [] ∧
    p.m_device_ptr = d ∧ p.m_vk_object_type = t := by
  unfold construct at h
  split at h
  · simp only [Bool.true_eq_false, if_false] at h
    rw [← Option.some.inj h]
    exact ⟨rfl, rfl, rfl, rfl⟩
  · exact Option.noConfusion h

theorem add_delegate_single_mode (p : DebugMarkerSupportProvider)
    (hdl : Nat) (w : DebugMarkerSupportProviderWorker)
    (h : p.m_worker_ptr = some w) : p.add_delegate hdl = none := by
  unfold add_delegate
  rw [h]

theorem remove_delegate_single_mode (p : DebugMarkerSupportProvider)
    (hdl : Nat) (w : DebugMarkerSupportProviderWorker)
    (h : p.m_worker_ptr = some w) : p.remove_delegate hdl = none := by
  unfold remove_delegate
  rw [h]

theorem set_vk_handle_delegate_mode (p : DebugMarkerSupportProvider)
    (hdl : Nat) (h : p.m_worker_ptr = none) : p.set_vk_handle hdl = none := by
  unfold set_vk_handle
  rw [h]

theorem setNameList_eq (n : List Char) (ws : List DebugMarkerSupportProviderWorker) :
    setNameList n ws = (nameMapped n ws, nameEvents n ws) := by
  induction ws with
  | nil => simp [setNameList, nameMapped, nameEvents]
  | cons w ws ih => simp [setNameList, nameMapped, nameEvents, ih]

theorem setTagList_eq_of_ne (t : Nat) (d : List Nat)
    (ws : List DebugMarkerSupportProviderWorker) (hd : d ≠ []) :
    setTagList t d ws = some (tagMapped t d ws, tagEvents t d ws) := by
  induction ws with
  | nil => simp [setTagList, tagMapped, tagEvents]
  | cons w ws ih =>
    obtain ⟨w', ev, heq, -⟩ :=
      DebugMarkerSupportProviderWorker.set_tag_internal_eq_of_ne w t d hd
    simp [setTagList, tagMapped, tagEvents, heq, ih]

end DebugMarkerSupportProvider

/-- Claim C5: `add_delegate` or `remove_delegate` on a provider constructed in
single-handle mode, and `set_vk_handle` on a provider constructed in
delegate mode, hit the defensive assertion (the operation aborts, returning
`none`); neither silently succeeds. -/
theorem mode_mismatch_calls_assert (d : Device) (t hdl : Nat)
    (ps pd : DebugMarkerSupportProvider)
    (hs : DebugMarkerSupportProvider.construct d t false = some ps)
    (hd : DebugMarkerSupportProvider.construct d t true = some pd) :
    ps.add_delegate hdl = none ∧ ps.remove_delegate hdl = none ∧
    pd.set_vk_handle hdl = none := by
  obtain ⟨w, hw, -⟩ := DebugMarkerSupportProvider.construct_single_inv d t ps hs
  obtain ⟨hn, -, -, -⟩ := DebugMarkerSupportProvider.construct_delegate_inv d t pd hd
  exact ⟨DebugMarkerSupportProvider.add_delegate_single_mode ps hdl w hw,
    DebugMarkerSupportProvider.remove_delegate_single_mode ps hdl w hw,
    DebugMarkerSupportProvider.set_vk_handle_delegate_mode pd hdl hn⟩

/-- Witness for C5: the concrete single-handle provider `singleProvW` and
delegate-mode provider `delegProvW`, both built on the live device `devW`. -/
theorem mode_mismatch_calls_assert_witness :
    DebugMarkerSupportProvider.construct devW 5 false = some singleProvW ∧
    DebugMarkerSupportProvider.construct devW 5 true = some delegProvW ∧
    (singleProvW.add_delegate 7 = none ∧ singleProvW.remove_delegate 7 = none ∧
      delegProvW.set_vk_handle 7 = none) :=
  ⟨rfl, rfl, mode_mismatch_calls_assert devW 5 7 singleProvW delegProvW rfl rfl⟩

/-- Claim C7: `set_name` forwards to the single worker's `set_name_internal` in
single-handle mode and fans `set_name_internal` out over every delegate in
collection order in delegate mode; `set_tag` follows the same rule (stated
for tag data passing the worker's size check). -/
theorem set_name_set_tag_fan_out (p : DebugMarkerSupportProvider)
    (w : DebugMarkerSupportProviderWorker) (n : List Char) (t : Nat) (d : List Nat) :
    (p.m_worker_ptr = some w →
      p.set_name n = ({ p with m_worker_ptr := some (w.set_name_internal n false).1 },
        (w.set_name_internal n false).2) ∧
      (d ≠ [] → ∃ w' ev, w.set_tag_internal t d false = some (w', ev) ∧
        p.set_tag t d = some ({ p with m_worker_ptr := some w' }, ev))) ∧
    (p.m_worker_ptr = none →
      p.set_name n =
        ({ p with m_delegate_workers := nameMapped n p.m_delegate_workers },
          nameEvents n p.m_delegate_workers) ∧
      (d ≠ [] → p.set_tag t d =
        some ({ p with m_delegate_workers := tagMapped t d p.m_delegate_workers },
          tagEvents t d p.m_delegate_workers))) := by
  constructor
  · intro hw
    constructor
    · unfold DebugMarkerSupportProvider.set_name
      rw [hw]
    · intro hdne
      obtain ⟨w', ev, heq, -⟩ :=
        DebugMarkerSupportProviderWorker.set_tag_internal_eq_of_ne w t d hdne
      refine ⟨w', ev, heq, ?_⟩
      unfold DebugMarkerSupportProvider.set_tag
      rw [hw]
      simp [heq]
  · intro hw
    constructor
    · unfold DebugMarkerSupportProvider.set_name
      rw [hw, DebugMarkerSupportProvider.setNameList_eq]
    · intro hdne
      unfold DebugMarkerSupportProvider.set_tag
      rw [hw, DebugMarkerSupportProvider.setTagList_eq_of_ne t d p.m_delegate_workers hdne]

/-- Witness for C7 on the two-delegate provider `delegProv2W` with non-empty
tag data. -/
theorem set_name_set_tag_fan_out_witness :
    delegProv2W.m_worker_ptr = none ∧ ([5] : List Nat) ≠ [] ∧
    (delegProv2W.set_name ['z'] =
      ({ delegProv2W with
          m_delegate_workers := nameMapped ['z'] delegProv2W.m_delegate_workers },
        nameEvents ['z'] delegProv2W.m_delegate_workers)) ∧
    (delegProv2W.set_tag 8 [5] =
      some ({ delegProv2W with
          m_delegate_workers := tagMapped 8 [5] delegProv2W.m_delegate_workers },
        tagEvents 8 [5] delegProv2W.m_delegate_workers)) :=
  ⟨rfl, by decide,
    ((set_name_set_tag_fan_out delegProv2W wTagW ['z'] 8 [5]).2 rfl).1,
    ((set_name_set_tag_fan_out delegProv2W wTagW ['z'] 8 [5]).2 rfl).2 (by decide)⟩

/-- Claim C8: `set_name_formatted` with an already rendered text behaves exactly
like `set_name` on that text truncated to the 1023 characters the
1024-byte buffer can hold beside the terminating NUL; when the rendered
text fits the buffer, it behaves exactly like `set_name` on the full
text. -/
theorem set_name_formatted_refines_set_name (p : DebugMarkerSupportProvider)
    (rendered : List Char) :
    p.set_name_formatted rendered = p.set_name (rendered.take 1023) ∧
    (rendered.length ≤ 1023 → p.set_name_formatted rendered = p.set_name rendered) := by
  have h1 : p.set_name_formatted rendered = p.set_name (rendered.take 1023) := by
    unfold DebugMarkerSupportProvider.set_name_formatted DebugMarkerSupportProvider.set_name
    cases p.m_worker_ptr <;> rfl
  refine ⟨h1, fun hlen => ?_⟩
  rw [h1, List.take_of_length_le hlen]

/-- Witness for C8: formatting the rendered text `"obj-7"` (which fits the
buffer) equals `set_name "obj-7"` on the one-delegate provider. -/
theorem set_name_formatted_refines_set_name_witness :
    (['o', 'b', 'j', '-', '7'] : List Char).length ≤ 1023 ∧
    delegProv1W.set_name_formatted ['o', 'b', 'j', '-', '7'] =
      delegProv1W.set_name ['o', 'b', 'j', '-', '7'] :=
  ⟨by decide,
    (set_name_formatted_refines_set_name delegProv1W ['o', 'b', 'j', '-', '7']).2
      (by decide)⟩

namespace DebugMarkerSupportProvider

theorem eraseFirstHandle_spec (hdl : Nat) (l1 : List DebugMarkerSupportProviderWorker)
    (w : DebugMarkerSupportProviderWorker) (l2 : List DebugMarkerSupportProviderWorker)
    (hne : ∀ x ∈ l1, x.get_vk_handle_internal ≠ hdl)
    (hw : w.get_vk_handle_internal = hdl) :
    eraseFirstHandle hdl (l1 ++ w :: l2) = some (l1 ++ l2) := by
  induction l1 with
  | nil => simp [eraseFirstHandle, hw]
  | cons x xs ih =>
    rw [List.cons_append, eraseFirstHandle,
      if_neg (hne x (List.mem_cons_self x xs)),
      ih (fun y hy => hne y (List.mem_cons_of_mem x hy))]
    rfl

theorem eraseFirstHandle_none (hdl : Nat) (l : List DebugMarkerSupportProviderWorker)
    (hne : ∀ x ∈ l, x.get_vk_handle_internal ≠ hdl) :
    eraseFirstHandle hdl l = none := by
  induction l with
  | nil => rfl
  | cons x xs ih =>
    rw [eraseFirstHandle, if_neg (hne x (List.mem_cons_self x xs)),
      ih (fun y hy => hne y (List.mem_cons_of_mem x hy))]
    rfl

end DebugMarkerSupportProvider

/-- Claim C9: in delegate mode, `remove_delegate(h)` removes exactly the first
delegate whose bound handle equals `h` — found by linear scan — leaving the
other delegates and their relative order untouched; when no delegate
matches, the found-assertion fires. -/
theorem remove_delegate_removes_first_match (p : DebugMarkerSupportProvider)
    (hdl : Nat) (hmode : p.m_worker_ptr = none) :
    (∀ l1 w l2, p.m_delegate_workers = l1 ++ w :: l2 →
      w.get_vk_handle_internal = hdl →
      (∀ x ∈ l1, x.get_vk_handle_internal ≠ hdl) →
      p.remove_delegate hdl = some { p with m_delegate_workers := l1 ++ l2 }) ∧
    ((∀ x ∈ p.m_delegate_workers, x.get_vk_handle_internal ≠ hdl) →
      p.remove_delegate hdl = none) := by
  constructor
  · intro l1 w l2 hdel hw hne
    unfold DebugMarkerSupportProvider.remove_delegate
    rw [hmode, hdel, DebugMarkerSupportProvider.eraseFirstHandle_spec hdl l1 w l2 hne hw]
  · intro hne
    unfold DebugMarkerSupportProvider.remove_delegate
    rw [hmode, DebugMarkerSupportProvider.eraseFirstHandle_none hdl p.m_delegate_workers hne]

/-- Witness for C9: removing handle `4` from the two-delegate provider drops
exactly its second delegate and keeps the first. -/
theorem remove_delegate_removes_first_match_witness :
    delegProv2W.m_worker_ptr = none ∧
    delegProv2W.m_delegate_workers = [wTagW] ++ wTagW4 :: [] ∧
    wTagW4.get_vk_handle_internal = 4 ∧
    (∀ x ∈ [wTagW], x.get_vk_handle_internal ≠ 4) ∧
    delegProv2W.remove_delegate 4 =
      some { delegProv2W with m_delegate_workers := [wTagW] ++ [] } :=
  ⟨rfl, rfl, rfl, by decide,
    (remove_delegate_removes_first_match delegProv2W 4 rfl).1 [wTagW] wTagW4 []
      rfl rfl (by decide)⟩

/-- Claim C2: `add_delegate(handle)` hits an assertion whenever `handle` is null
(the fresh worker's `set_vk_handle_internal` rejects a null handle on a
worker that never held one) or `handle` already equals an existing
delegate's bound handle (the debug-configuration duplicate scan); in
neither case does the call succeed. -/
theorem add_delegate_null_or_duplicate_asserts (p : DebugMarkerSupportProvider)
    (hdl : Nat)
    (hbad : hdl = 0 ∨ ∃ d ∈ p.m_delegate_workers, d.get_vk_handle_internal = hdl) :
    p.add_delegate hdl = none := by
  unfold DebugMarkerSupportProvider.add_delegate
  cases hw : p.m_worker_ptr with
  | some w => rfl
  | none =>
    by_cases hdup : ∃ d ∈ p.m_delegate_workers, d.get_vk_handle_internal = hdl
    · rw [if_pos hdup]
    · rw [if_neg hdup]
      obtain h0 | hdup' := hbad
      · subst h0
        cases hc : DebugMarkerSupportProviderWorker.construct p.m_device_ptr
            p.m_vk_object_type with
        | none => rfl
        | some w0 =>
          have h00 : w0.m_vk_object_handle = 0 := by
            rw [DebugMarkerSupportProviderWorker.construct_eq p.m_device_ptr
              p.m_vk_object_type w0 hc]
          have hv : w0.set_vk_handle_internal 0 = none := by
            unfold DebugMarkerSupportProviderWorker.set_vk_handle_internal
            rw [if_pos ⟨rfl, h00⟩]
          simp [hv]
      · exact absurd hdup' hdup

/-- Witness for C2: adding the null handle to the (empty) delegate-mode
provider hits the assertion. -/
theorem add_delegate_null_or_duplicate_asserts_witness :
    ((0 : Nat) = 0 ∨ ∃ d ∈ delegProvW.m_delegate_workers,
      d.get_vk_handle_internal = 0) ∧
    delegProvW.add_delegate 0 = none :=
  ⟨Or.inl rfl, add_delegate_null_or_duplicate_asserts delegProvW 0 (Or.inl rfl)⟩

/-- Claim C10: on a delegate-mode provider whose collection is empty, `set_name`,
`set_name_formatted` and `set_tag` are silent no-ops — no assertion, no
state change, no driver call — so a label set before the first
`add_delegate` is lost, and the first delegate added afterwards starts with
an empty name and an empty tag. -/
theorem delegate_mode_empty_ops_noop (p : DebugMarkerSupportProvider)
    (n rendered : List Char) (t : Nat) (d : List Nat) (hdl : Nat)
    (hmode : p.m_worker_ptr = none) (hdel : p.m_delegate_workers = []) :
    p.set_name n = (p, []) ∧
    p.set_name_formatted rendered = (p, []) ∧
    p.set_tag t d = some (p, []) ∧
    (p.m_device_ptr.alive = true → hdl ≠ 0 →
      p.add_delegate hdl = some ({ p with m_delegate_workers :=
        [{ m_device_ptr := p.m_device_ptr
           m_is_ext_debug_marker_available := p.m_device_ptr.ext_debug_marker_available
           m_object_name := []
           m_object_tag_data := []
           m_object_tag_name := 0
           m_vk_object_handle := hdl
           m_vk_object_type := p.m_vk_object_type }] }, [])) := by
  obtain ⟨dws, dev, ty, wp⟩ := p
  simp only at hmode hdel
  subst hmode
  subst hdel
  refine ⟨rfl, rfl, rfl, ?_⟩
  intro halive h0
  unfold DebugMarkerSupportProvider.add_delegate
  rw [if_neg (by simp)]
  unfold DebugMarkerSupportProviderWorker.construct
  simp only
  rw [if_pos halive]
  unfold DebugMarkerSupportProviderWorker.set_vk_handle_internal
  simp only
  rw [if_neg (fun hand => h0 hand.1)]

/-- Witness for C10 on the empty delegate-mode provider `delegProvW`. -/
theorem delegate_mode_empty_ops_noop_witness :
    delegProvW.m_worker_ptr = none ∧ delegProvW.m_delegate_workers = [] ∧
    devW.alive = true ∧ (2 : Nat) ≠ 0 ∧
    delegProvW.set_name ['x'] = (delegProvW, []) ∧
    delegProvW.set_name_formatted ['x'] = (delegProvW, []) ∧
    delegProvW.set_tag 6 [1] = some (delegProvW, []) ∧
    delegProvW.add_delegate 2 = some ({ delegProvW with m_delegate_workers :=
      [{ m_device_ptr := delegProvW.m_device_ptr
         m_is_ext_debug_marker_available :=
           delegProvW.m_device_ptr.ext_debug_marker_available
         m_object_name := []
         m_object_tag_data := []
         m_object_tag_name := 0
         m_vk_object_handle := 2
         m_vk_object_type := delegProvW.m_vk_object_type }] }, []) :=
  ⟨rfl, rfl, rfl, by decide,
    (delegate_mode_empty_ops_noop delegProvW ['x'] ['x'] 6 [1] 2 rfl rfl).1,
    (delegate_mode_empty_ops_noop delegProvW ['x'] ['x'] 6 [1] 2 rfl rfl).2.1,
    (delegate_mode_empty_ops_noop delegProvW ['x'] ['x'] 6 [1] 2 rfl rfl).2.2.1,
    (delegate_mode_empty_ops_noop delegProvW ['x'] ['x'] 6 [1] 2 rfl rfl).2.2.2
      rfl (by decide)⟩

/-- Claim C1: in delegate mode with at least one existing delegate, a successful
`add_delegate(h)` appends a new worker whose cached name and cached tag
(tag id and tag bytes) equal the current name and tag of the first delegate
in the collection, before any further `set_name`/`set_tag` call.  The
hypothesis on the first delegate records the worker invariant that an empty
tag buffer goes with the zero tag id (the worker's size check makes any
other combination unreachable). -/
theorem add_delegate_copies_first_delegate_label
    (p : DebugMarkerSupportProvider) (first : DebugMarkerSupportProviderWorker)
    (rest : List DebugMarkerSupportProviderWorker) (hdl : Nat)
    (p' : DebugMarkerSupportProvider) (ev : List DriverCall)
    (hdel : p.m_delegate_workers = first :: rest)
    (hwf : first.m_object_tag_data = [] → first.m_object_tag_name = 0)
    (hrun : p.add_delegate hdl = some (p', ev)) :
    ∃ w, p'.m_delegate_workers = (first :: rest) ++ [w] ∧
      w.get_name = first.get_name ∧ w.get_tag = first.get_tag := by
  unfold DebugMarkerSupportProvider.add_delegate at hrun
  cases hw : p.m_worker_ptr with
  | some w => rw [hw] at hrun; exact Option.noConfusion hrun
  | none =>
    rw [hw] at hrun
    simp only at hrun
    by_cases hdup : ∃ d ∈ p.m_delegate_workers, d.get_vk_handle_internal = hdl
    · rw [if_pos hdup] at hrun; exact Option.noConfusion hrun
    · rw [if_neg hdup] at hrun
      cases hc : DebugMarkerSupportProviderWorker.construct p.m_device_ptr
          p.m_vk_object_type with
      | none => rw [hc] at hrun; exact Option.noConfusion hrun
      | some w0 =>
        rw [hc] at hrun
        simp only at hrun
        cases hv : w0.set_vk_handle_internal hdl with
        | none => rw [hv] at hrun; exact Option.noConfusion hrun
        | some w1 =>
          rw [hv] at hrun
          simp only at hrun
          rw [hdel] at hrun
          simp only at hrun
          by_cases htag : 0 < (first.get_tag).1.length
          · rw [if_pos htag] at hrun
            have hdne : (first.get_tag).1 ≠ [] := by
              intro hnil
              rw [hnil] at htag
              simp at htag
            obtain ⟨w3, ev2, heq, ht1, ht2, hn3, -, -, -⟩ :=
              DebugMarkerSupportProviderWorker.set_tag_internal_eq_of_ne
                ((w1.set_name_internal first.get_name false).1)
                (first.get_tag).2 (first.get_tag).1 hdne
            rw [heq] at hrun
            simp only [Option.some.injEq, Prod.mk.injEq] at hrun
            obtain ⟨hp', -⟩ := hrun
            refine ⟨w3, by rw [← hp'], ?_, ?_⟩
            · exact hn3.trans
                (DebugMarkerSupportProviderWorker.set_name_internal_fst w1
                  first.get_name false).1
            · show (w3.m_object_tag_data, w3.m_object_tag_name) = first.get_tag
              rw [ht1, ht2]
          · rw [if_neg htag] at hrun
            simp only [Option.some.injEq, Prod.mk.injEq] at hrun
            obtain ⟨hp', -⟩ := hrun
            have hfdata : first.m_object_tag_data = [] :=
              List.length_eq_zero.mp (Nat.eq_zero_of_le_zero (Nat.not_lt.mp htag))
            have hw1 : w1 = { w0 with m_vk_object_handle := hdl } :=
              DebugMarkerSupportProviderWorker.set_vk_handle_internal_some w0 hdl w1 hv
            have hw0 := DebugMarkerSupportProviderWorker.construct_eq p.m_device_ptr
              p.m_vk_object_type w0 hc
            refine ⟨(w1.set_name_internal first.get_name false).1, by rw [← hp'], ?_, ?_⟩
            · exact (DebugMarkerSupportProviderWorker.set_name_internal_fst w1
                first.get_name false).1
            · show ((w1.set_name_internal first.get_name false).1.m_object_tag_data,
                (w1.set_name_internal first.get_name false).1.m_object_tag_name) =
                first.get_tag
              rw [(DebugMarkerSupportProviderWorker.set_name_internal_fst w1
                  first.get_name false).2.1,
                (DebugMarkerSupportProviderWorker.set_name_internal_fst w1
                  first.get_name false).2.2.1, hw1, hw0]
              show (([] : List Nat), (0 : Nat)) = first.get_tag
              rw [DebugMarkerSupportProviderWorker.get_tag, hfdata, hwf hfdata]

/-- Witness for C1: adding handle `5` to the one-delegate provider (whose
delegate carries name `['a']` and tag `(7, [1, 2])`) appends a delegate with
that same label. -/
theorem add_delegate_copies_first_delegate_label_witness :
    delegProv1W.m_delegate_workers = [wTagW] ∧
    (wTagW.m_object_tag_data = [] → wTagW.m_object_tag_name = 0) ∧
    delegProv1W.add_delegate 5 =
      some (((delegProv1W.add_delegate 5).getD (delegProv1W, [])).1,
        ((delegProv1W.add_delegate 5).getD (delegProv1W, [])).2) ∧
    (∃ w, ((delegProv1W.add_delegate 5).getD (delegProv1W, [])).1.m_delegate_workers =
        ([wTagW] : List DebugMarkerSupportProviderWorker) ++ [w] ∧
      w.get_name = wTagW.get_name ∧ w.get_tag = wTagW.get_tag) :=
  ⟨rfl, by decide, rfl,
    add_delegate_copies_first_delegate_label delegProv1W wTagW [] 5
      ((delegProv1W.add_delegate 5).getD (delegProv1W, [])).1
      ((delegProv1W.add_delegate 5).getD (delegProv1W, [])).2
      rfl (by decide) rfl⟩

namespace DebugMarkerSupportProvider

theorem apply_mode (p : DebugMarkerSupportProvider) (op : Op)
    (p' : DebugMarkerSupportProvider) (ev : List DriverCall)
    (h : p.apply op = some (p', ev)) :
    p'.m_worker_ptr.isSome = p.m_worker_ptr.isSome ∧
    (∀ w, p.m_worker_ptr = some w → p'.m_delegate_workers = p.m_delegate_workers) := by
  cases op with
  | addDelegate hdl =>
    unfold apply add_delegate at h
    cases hw : p.m_worker_ptr with
    | some w => rw [hw] at h; exact Option.noConfusion h
    | none =>
      rw [hw] at h
      simp only at h
      repeat' split at h
      all_goals
        first
        | exact Option.noConfusion h
        | (simp only [Option.some.injEq, Prod.mk.injEq] at h
           obtain ⟨h1, -⟩ := h
           subst h1
           exact ⟨rfl, fun x hx => Option.noConfusion hx⟩)
  | removeDelegate hdl =>
    unfold apply remove_delegate at h
    cases hw : p.m_worker_ptr with
    | some w => rw [hw] at h; exact Option.noConfusion h
    | none =>
      rw [hw] at h
      simp only at h
      cases he : eraseFirstHandle hdl p.m_delegate_workers with
      | none => rw [he] at h; exact Option.noConfusion h
      | some ws =>
        rw [he] at h
        simp only [Option.some.injEq, Prod.mk.injEq] at h
        obtain ⟨h1, -⟩ := h
        subst h1
        exact ⟨rfl, fun x hx => Option.noConfusion hx⟩
  | setName n =>
    unfold apply set_name at h
    cases hw : p.m_worker_ptr with
    | some w =>
      rw [hw] at h
      simp only [Option.some.injEq, Prod.mk.injEq] at h
      obtain ⟨h1, -⟩ := h
      subst h1
      exact ⟨rfl, fun x hx => rfl⟩
    | none =>
      rw [hw] at h
      simp only [Option.some.injEq, Prod.mk.injEq] at h
      obtain ⟨h1, -⟩ := h
      subst h1
      exact ⟨rfl, fun x hx => Option.noConfusion hx⟩
  | setNameFormatted rendered =>
    unfold apply set_name_formatted at h
    cases hw : p.m_worker_ptr with
    | some w =>
      rw [hw] at h
      simp only [Option.some.injEq, Prod.mk.injEq] at h
      obtain ⟨h1, -⟩ := h
      subst h1
      exact ⟨rfl, fun x hx => rfl⟩
    | none =>
      rw [hw] at h
      simp only [Option.some.injEq, Prod.mk.injEq] at h
      obtain ⟨h1, -⟩ := h
      subst h1
      exact ⟨rfl, fun x hx => Option.noConfusion hx⟩
  | setTag t d =>
    unfold apply set_tag at h
    cases hw : p.m_worker_ptr with
    | some w =>
      rw [hw] at h
      simp only at h
      repeat' split at h
      all_goals
        first
        | exact Option.noConfusion h
        | (simp only [Option.some.injEq, Prod.mk.injEq] at h
           obtain ⟨h1, -⟩ := h
           subst h1
           exact ⟨rfl, fun x hx => rfl⟩)
    | none =>
      rw [hw] at h
      simp only at h
      repeat' split at h
      all_goals
        first
        | exact Option.noConfusion h
        | (simp only [Option.some.injEq, Prod.mk.injEq] at h
           obtain ⟨h1, -⟩ := h
           subst h1
           exact ⟨rfl, fun x hx => Option.noConfusion hx⟩)
  | setVkHandle hdl =>
    unfold apply set_vk_handle at h
    cases hw : p.m_worker_ptr with
    | some w =>
      rw [hw] at h
      simp only at h
      cases hv : w.set_vk_handle_internal hdl with
      | none => rw [hv] at h; exact Option.noConfusion h
      | some w' =>
        rw [hv] at h
        simp only [Option.some.injEq, Prod.mk.injEq] at h
        obtain ⟨h1, -⟩ := h
        subst h1
        exact ⟨rfl, fun x hx => rfl⟩
    | none =>
      rw [hw] at h
      exact Option.noConfusion h

theorem run_mode (p : DebugMarkerSupportProvider) (ops : List Op)
    (p' : DebugMarkerSupportProvider) (evs : List DriverCall)
    (h : p.run ops = some (p', evs)) :
    p'.m_worker_ptr.isSome = p.m_worker_ptr.isSome ∧
    (∀ w, p.m_worker_ptr = some w → p'.m_delegate_workers = p.m_delegate_workers) := by
  induction ops generalizing p evs with
  | nil =>
    unfold run at h
    simp only [Option.some.injEq, Prod.mk.injEq] at h
    obtain ⟨h1, -⟩ := h
    subst h1
    exact ⟨rfl, fun x hx => rfl⟩
  | cons op ops ih =>
    unfold run at h
    cases ha : p.apply op with
    | none => rw [ha] at h; exact Option.noConfusion h
    | some r =>
      obtain ⟨q, ev⟩ := r
      rw [ha] at h
      simp only at h
      cases hr : q.run ops with
      | none => rw [hr] at h; exact Option.noConfusion h
      | some r2 =>
        obtain ⟨q2, evs2⟩ := r2
        rw [hr] at h
        simp only [Option.some.injEq, Prod.mk.injEq] at h
        obtain ⟨h1, -⟩ := h
        subst h1
        obtain ⟨ha1, ha2⟩ := apply_mode p op q ev ha
        obtain ⟨hr1, hr2⟩ := ih q evs2 hr
        refine ⟨hr1.trans ha1, fun w hw => ?_⟩
        have hqs : q.m_worker_ptr.isSome = true := by
          rw [ha1, hw]
          rfl
        obtain ⟨w', hw'⟩ := Option.isSome_iff_exists.mp hqs
        rw [hr2 w' hw', ha2 w hw]

end DebugMarkerSupportProvider

/-- Claim C6: the two storage forms are never both populated and the mode is
fixed at construction: a provider constructed without delegate workers
keeps a non-null single worker pointer and an empty delegate collection
through any sequence of member-function invocations, and one constructed
with delegate workers keeps a null single worker pointer; no operation
changes the mode. -/
theorem storage_modes_exclusive_for_lifetime (d : Device) (t : Nat) (u : Bool)
    (p p' : DebugMarkerSupportProvider) (ops : List Op) (evs : List DriverCall)
    (hcons : DebugMarkerSupportProvider.construct d t u = some p)
    (hrun : p.run ops = some (p', evs)) :
    (u = false → p'.m_worker_ptr.isSome = true ∧ p'.m_delegate_workers = []) ∧
    (u = true → p'.m_worker_ptr = none) := by
  obtain ⟨hiso, hdeleg⟩ := DebugMarkerSupportProvider.run_mode p ops p' evs hrun
  constructor
  · rintro rfl
    obtain ⟨w, hw, hd0⟩ := DebugMarkerSupportProvider.construct_single_inv d t p hcons
    refine ⟨?_, ?_⟩
    · rw [hiso, hw]
      rfl
    · rw [hdeleg w hw, hd0]
  · rintro rfl
    obtain ⟨hn, -, -, -⟩ := DebugMarkerSupportProvider.construct_delegate_inv d t p hcons
    have hfalse : p'.m_worker_ptr.isSome = false := by
      rw [hiso, hn]
      rfl
    cases hc : p'.m_worker_ptr with
    | none => rfl
    | some w => rw [hc] at hfalse; exact Bool.noConfusion hfalse

/-- Witness for C6: a delegate-mode provider built on `devW` keeps a null
single worker pointer across a four-call history of adds, a rename and a
removal. -/
theorem storage_modes_exclusive_for_lifetime_witness :
    DebugMarkerSupportProvider.construct devW 5 true = some delegProvW ∧
    delegProvW.run opsW = some (((delegProvW.run opsW).getD (delegProvW, [])).1,
      ((delegProvW.run opsW).getD (delegProvW, [])).2) ∧
    ((delegProvW.run opsW).getD (delegProvW, [])).1.m_worker_ptr = none :=
  ⟨rfl, rfl,
    (storage_modes_exclusive_for_lifetime devW 5 true delegProvW
      ((delegProvW.run opsW).getD (delegProvW, [])).1 opsW
      ((delegProvW.run opsW).getD (delegProvW, [])).2 rfl rfl).2 rfl⟩

end Anvil
